import Mathlib

/-!
# CS-375 coursework: the Cube shape object and the two application drivers

A shallow embedding of `Assignment-3/Cube.js`, `Assignment-3/main.js` and
`Assignment-2/main.js`.

* The graphics API, the document and the alert box are observed through a
  trace of `Event`s carried by the `Host` state; every call the source makes
  appends one event.
* The JavaScript numbers the claims depend on (`0.5`, `-0.5`,
  `indices.count / 2`) are dyadic rationals that IEEE doubles represent
  exactly; numbers are embedded as `ℚ`, literals kept as written.
* A statement that throws is a `Completion.throw` carrying the state reached.
-/

namespace CS375

/-! ## Values and events -/

/-- Value returned by the external `initShaders` helper: a program object, or a
number (the helper reports failure with a negative number). -/
inductive ShaderProgram
  | program (handle : Nat)
  | number (n : Int)
deriving DecidableEq

/-- JavaScript `shaderProgram < 0`: an object converts to `NaN`, which is not
below zero; a number is compared as such. -/
def ShaderProgram.ltZero : ShaderProgram → Bool
  | .program _ => false
  | .number n => decide (n < 0)

/-- The two bindings the shape object enables and disables. -/
inductive Binding
  | aPosition
  | indices
deriving DecidableEq

/-- Primitive modes used by the sources. -/
inductive DrawMode
  | TRIANGLE_STRIP
deriving DecidableEq

/-- Element types of an index buffer. -/
inductive IndexType
  | UNSIGNED_SHORT
deriving DecidableEq

/-- Capabilities passed to `gl.enable` by the drivers. -/
inductive Capability
  | DEPTH_TEST
  | CULL_FACE
deriving DecidableEq

/-- Exceptions the embedded code can raise. -/
inductive JSError
  | TypeError
  | ReferenceError
deriving DecidableEq

/-- Callbacks that can be handed to `requestAnimationFrame`. -/
inductive Callback
  | render
deriving DecidableEq

/-- Observable calls, in the order the program makes them. -/
inductive Event
  | getElementById (id : String)
  | getContext (contextId : String)
  | clearColor (r g b a : ℚ)
  | clearDepth (d : ℚ)
  | glEnable (cap : Capability)
  | cullFace (mode : Option Nat)
  | newCone (n : ℚ)
  | newCube (vertexShaderId fragmentShaderId : Option String)
  | initShaders (vertShdr fragShdr : String)
  | alert (msg : String)
  | newAttribute (program : ShaderProgram) (data : List ℚ) (name : String) (size : Nat)
  | newIndices (data : List Nat)
  | useProgram (program : ShaderProgram)
  | enable (b : Binding)
  | disable (b : Binding)
  | drawElements (mode : DrawMode) (count : ℚ) (type : IndexType) (offset : ℚ)
  | clear (mask : Nat)
  | shapeRender
  | requestAnimationFrame (cb : Callback)
deriving DecidableEq

/-- Predicate: the event is a draw call. -/
def Event.isDraw : Event → Bool
  | .drawElements _ _ _ _ => true
  | _ => false

/-- Predicate: the event is an alert. -/
def Event.isAlert : Event → Bool
  | .alert _ => true
  | _ => false

/-- Predicate: the event creates a graphics buffer (`new Attribute`, `new Indices`). -/
def Event.isBufferCreation : Event → Bool
  | .newAttribute _ _ _ _ => true
  | .newIndices _ => true
  | _ => false

/-- Predicate: the event is a `gl.clear`. -/
def Event.isClear : Event → Bool
  | .clear _ => true
  | _ => false

/-- Predicate: the event constructs a shape object. -/
def Event.isShapeConstruction : Event → Bool
  | .newCone _ => true
  | .newCube _ _ => true
  | _ => false

/-- Predicate: the event is a call of the shape object's `render()`. -/
def Event.isShapeRender : Event → Bool
  | .shapeRender => true
  | _ => false

/-- Predicate: the event is a call of the display-refresh scheduling hook. -/
def Event.isSchedule : Event → Bool
  | .requestAnimationFrame _ => true
  | _ => false

/-! ## Host state -/

/-- State of the page: the call trace, the `enabled` flags of the position
attribute and of the index buffer, the callbacks waiting for the next display
refresh, and the exceptions no handler caught. -/
structure Host where
  trace : List Event
  aPositionEnabled : Bool
  indicesEnabled : Bool
  frameCallbacks : List Callback
  uncaught : List JSError
deriving DecidableEq

/-- A freshly loaded page. -/
def Host.fresh : Host :=
  { trace := [], aPositionEnabled := false, indicesEnabled := false,
    frameCallbacks := [], uncaught := [] }

/-- Record one call. -/
def Host.emit (h : Host) (e : Event) : Host :=
  { h with trace := h.trace ++ [e] }

/-- Outcome of running a statement sequence. -/
inductive Completion (σ : Type)
  | normal (s : σ)
  | throw (e : JSError) (s : σ)

/-! ## External helpers used by `Cube.js` -/

/-- Modelled from the spec: the `Attribute` helper (not among the sources)
wraps a vertex buffer built from the position list; `enable()` and `disable()`
set and clear its `enabled` flag. -/
structure Attribute where
  program : ShaderProgram
  data : List ℚ
  name : String
  size : Nat
deriving DecidableEq

/-- Modelled from the spec: the `Indices` helper (not among the sources) wraps
an index buffer; `count` is the length of the index list it was built from and
`type` is the unsigned-short element type named by the source comments. -/
structure Indices where
  data : List Nat
  count : Nat
  type : IndexType
deriving DecidableEq

/-- Modelled from the spec: `new Indices(gl, indices)`. -/
def Indices.create (indices : List Nat) : Indices :=
  { data := indices, count := indices.length, type := .UNSIGNED_SHORT }

/-- Modelled from the spec: `aPosition.enable()` sets the attribute's flag. -/
def Attribute.enable (_a : Attribute) (h : Host) : Host :=
  { h.emit (.enable .aPosition) with aPositionEnabled := true }

/-- Modelled from the spec: `aPosition.disable()` clears the attribute's flag. -/
def Attribute.disable (_a : Attribute) (h : Host) : Host :=
  { h.emit (.disable .aPosition) with aPositionEnabled := false }

/-- Modelled from the spec: `indices.enable()` sets the index buffer's flag. -/
def Indices.enable (_i : Indices) (h : Host) : Host :=
  { h.emit (.enable .indices) with indicesEnabled := true }

/-- Modelled from the spec: `indices.disable()` clears the index buffer's flag. -/
def Indices.disable (_i : Indices) (h : Host) : Host :=
  { h.emit (.disable .indices) with indicesEnabled := false }

/-! ## `Assignment-3/Cube.js` -/

/-- JavaScript `ToBoolean` on an optional string argument: `undefined` (an
omitted argument) and the empty string are falsy. -/
def toBoolean : Option String → Bool
  | none => false
  | some s => !(s == "")

/-- JavaScript `a || d` for an optional string `a` and a string `d`. -/
def jsOr (a : Option String) (d : String) : String :=
  match a with
  | some s => if toBoolean (some s) then s else d
  | none => d

/-- Values the `render` closure of a constructed cube refers to.  The names
`positions`, `indices` and `aPosition` are assigned once by the constructor and
by nothing else in the program, so the closure is modelled as holding them. -/
structure CubeClosure where
  shaderProgram : ShaderProgram
  positions : List ℚ
  aPosition : Attribute
  indices : Indices
deriving DecidableEq

/-- The object `new Cube(...)` yields: with or without a `render` property. -/
inductive CubeObject
  | noRender
  | withRender (c : CubeClosure)
deriving DecidableEq

/-- Text of the alert raised when the shader pipeline fails. -/
def alertText (vertShdr fragShdr : String) : String :=
  "Error: Cone shader pipeline failed to compile.\n\n" ++
    "\tvertex shader id:  \t" ++ vertShdr ++ "\n" ++
    "\tfragment shader id:\t" ++ fragShdr ++ "\n"

/-- The position list after the constructor's eight literal/`push` statements. -/
def cubePositions : List ℚ :=
  let positions : List ℚ := [-0.5, 0.5, 0.5]
  let positions := positions ++ [0.5, 0.5, 0.5]
  let positions := positions ++ [0.5, -0.5, 0.5]
  let positions := positions ++ [-0.5, -0.5, 0.5]
  let positions := positions ++ [-0.5, 0.5, -0.5]
  let positions := positions ++ [0.5, 0.5, -0.5]
  let positions := positions ++ [0.5, -0.5, -0.5]
  let positions := positions ++ [-0.5, -0.5, -0.5]
  positions

/-- The index list after the constructor's eight literal/`push` statements. -/
def cubeIndices : List Nat :=
  let indices : List Nat := [0]
  let indices := indices ++ [1]
  let indices := indices ++ [2]
  let indices := indices ++ [3]
  let indices := indices ++ [4]
  let indices := indices ++ [5]
  let indices := indices ++ [6]
  let indices := indices ++ [7]
  indices

/-- The constructor `Cube( gl, vertexShaderId, fragmentShaderId )`; `initShaders`
is the external shader-compilation helper. -/
def Cube (initShaders : String → String → ShaderProgram)
    (vertexShaderId fragmentShaderId : Option String) (h : Host) : Host × CubeObject :=
  let vertShdr := jsOr vertexShaderId "Cone-vertex-shader"
  let fragShdr := jsOr fragmentShaderId "Cone-fragment-shader"
  let shaderProgram := initShaders vertShdr fragShdr
  let h := h.emit (.initShaders vertShdr fragShdr)
  if shaderProgram.ltZero then
    (h.emit (.alert (alertText vertShdr fragShdr)), .noRender)
  else
    let positions := cubePositions
    let indices := cubeIndices
    let _count := indices.length
    let aPosition : Attribute :=
      { program := shaderProgram, data := positions, name := "aPosition", size := 3 }
    let h := h.emit (.newAttribute shaderProgram positions "aPosition" 3)
    let indicesObj := Indices.create indices
    let h := h.emit (.newIndices indices)
    (h, .withRender
      { shaderProgram := shaderProgram, positions := positions,
        aPosition := aPosition, indices := indicesObj })

/-- The body of `this.render = function () { ... }`. -/
def CubeClosure.render (c : CubeClosure) (h : Host) : Host :=
  let h := h.emit (.useProgram c.shaderProgram)
  let h := c.aPosition.enable h
  let h := c.indices.enable h
  let count : ℚ := (c.indices.count : ℚ) / 2
  let h := h.emit (.drawElements .TRIANGLE_STRIP count c.indices.type 0)
  let h := c.aPosition.disable h
  let h := c.indices.disable h
  h

/-- A call `obj.render()`: a `TypeError` when the object has no `render`. -/
def CubeObject.render (obj : CubeObject) (h : Host) : Completion Host :=
  match obj with
  | .noRender => .throw .TypeError h
  | .withRender c => .normal (c.render (h.emit .shapeRender))

/-! ## Reading geometry back from the buffers -/

/-- The vertices an attribute of size 3 decodes from a flat position list. -/
def vertices : List ℚ → List (ℚ × ℚ × ℚ)
  | x :: y :: z :: rest => (x, y, z) :: vertices rest
  | _ => []

/-- Size in bytes of one index of the given element type. -/
def IndexType.bytes : IndexType → Nat
  | .UNSIGNED_SHORT => 2

/-- The index values a call reads from the bound index buffer `data`:
`count` entries starting at byte offset `offset`; a call that is not a draw
reads none. -/
def referenced (data : List Nat) : Event → List Nat
  | .drawElements _ count type offset => (data.drop (⌊offset⌋₊ / type.bytes)).take ⌊count⌋₊
  | _ => []

/-- The z coordinate of vertex `i` of a flat position list. -/
def zOf (positions : List ℚ) (i : Nat) : Option ℚ :=
  positions[3 * i + 2]?

/-- The text `s` occurs in the text `msg`. -/
def containsText (msg s : String) : Prop :=
  ∃ a b : String, msg = a ++ s ++ b

/-- The argument pairs of the `initShaders` calls of a trace, in order. -/
def initShadersArgs : List Event → List (String × String)
  | [] => []
  | .initShaders v f :: rest => (v, f) :: initShadersArgs rest
  | _ :: rest => initShadersArgs rest

/-- The calls made by `obj.render()` on a freshly loaded page. -/
def renderTrace (obj : CubeObject) : List Event :=
  match obj.render Host.fresh with
  | .normal h => h.trace
  | .throw _ h => h.trace

/-- The draw calls of a trace, in order. -/
def drawCalls (trace : List Event) : List Event :=
  trace.filter Event.isDraw

/-- The six calls one `render()` of a cube with closure `c` makes. -/
def renderCalls (c : CubeClosure) : List Event :=
  [.useProgram c.shaderProgram, .enable .aPosition, .enable .indices,
   .drawElements .TRIANGLE_STRIP ((c.indices.count : ℚ) / 2) c.indices.type 0,
   .disable .aPosition, .disable .indices]

/-- The closure a successful construction with program `p` creates. -/
def cubeClosure (p : ShaderProgram) : CubeClosure :=
  { shaderProgram := p, positions := cubePositions,
    aPosition := { program := p, data := cubePositions, name := "aPosition", size := 3 },
    indices := Indices.create cubeIndices }

/-- A program handle as `initShaders` returns it on success. -/
def okShaders : String → String → ShaderProgram :=
  fun _ _ => .program 1

/-- The failure value of `initShaders`. -/
def badShaders : String → String → ShaderProgram :=
  fun _ _ => .number (-1)

/-! ## The page the drivers run in -/

/-- The `gl.COLOR_BUFFER_BIT` constant of the graphics API. -/
def COLOR_BUFFER_BIT : Nat := 0x4000

/-- The `gl.DEPTH_BUFFER_BIT` constant of the graphics API. -/
def DEPTH_BUFFER_BIT : Nat := 0x100

/-- A global variable of the page: never assigned, holding `null`, or holding
an object. -/
inductive Global (α : Type)
  | unassigned
  | null
  | obj (a : α)
deriving DecidableEq

/-- A canvas element: `getContext k` tells whether a context of kind `k` is
returned (`false` stands for the `null` result). -/
structure Canvas where
  getContext : String → Bool

/-- A canvas that grants every context request. -/
def grantingCanvas : Canvas :=
  { getContext := fun _ => true }

/-- A canvas that yields no context. -/
def refusingCanvas : Canvas :=
  { getContext := fun _ => false }

/-- `requestAnimationFrame(cb)`: the callback joins those run at the next
display refresh. -/
def requestAnimationFrame (cb : Callback) (h : Host) : Host :=
  { h.emit (.requestAnimationFrame cb) with frameCallbacks := h.frameCallbacks ++ [cb] }

/-! ## `Assignment-3/main.js` -/

namespace Assignment3

/-- What the depth-enabled driver runs against: the document and the external
shader-compilation helper. -/
structure Page where
  getElementById : String → Option Canvas
  initShaders : String → String → ShaderProgram

/-- Host state together with the driver's globals `gl` and `cube`. -/
structure State where
  host : Host
  gl : Global Unit
  cube : Global CubeObject
deriving DecidableEq

/-- State at page load. -/
def State.fresh : State :=
  { host := Host.fresh, gl := .unassigned, cube := .unassigned }

/-- Record one call. -/
def State.emit (s : State) (e : Event) : State :=
  { s with host := s.host.emit e }

/-- The driver's `render()`. -/
def render (s : State) : Completion State :=
  match s.gl with
  | .unassigned => .throw .ReferenceError s
  | .null => .throw .TypeError s
  | .obj _ =>
    let s := s.emit (.clear (COLOR_BUFFER_BIT ||| DEPTH_BUFFER_BIT))
    match s.cube with
    | .unassigned => .throw .ReferenceError s
    | .null => .throw .TypeError s
    | .obj cube =>
      match cube.render s.host with
      | .throw e h => .throw e { s with host := h }
      | .normal h => .normal { s with host := requestAnimationFrame .render h }

/-- The driver's `init()`, the page-load handler.  A method call on `null`
(the canvas lookup or the context request came back empty) throws a
`TypeError`.  `gl.BACK_FACE` is not a constant of the graphics API, so
`gl.cullFace` receives `undefined`, here `none`. -/
def init (page : Page) (s : State) : Completion State :=
  let s := s.emit (.getElementById "webgl-canvas")
  match page.getElementById "webgl-canvas" with
  | none => .throw .TypeError s
  | some canvas =>
    let s := s.emit (.getContext "webgl2")
    let s := { s with gl := if canvas.getContext "webgl2" then .obj () else .null }
    match s.gl with
    | .obj _ =>
      let s := s.emit (.clearColor 1.0 1.0 1.0 1.0)
      let s := s.emit (.clearDepth 1.0)
      let s := s.emit (.glEnable .DEPTH_TEST)
      let s := s.emit (.glEnable .CULL_FACE)
      let s := s.emit (.cullFace none)
      let s := s.emit (.newCube none none)
      let r := Cube page.initShaders none none s.host
      let s := { s with host := r.1, cube := .obj r.2 }
      render s
    | _ => .throw .TypeError s

/-- Run one scheduled callback; an exception it raises is left uncaught. -/
def runCallback (cb : Callback) (s : State) : State :=
  match cb with
  | .render =>
    match render s with
    | .normal s => s
    | .throw e s => { s with host := { s.host with uncaught := s.host.uncaught ++ [e] } }

/-- One display refresh: every callback scheduled so far is run once; the
callbacks they schedule wait for the next refresh. -/
def runFrame (s : State) : State :=
  s.host.frameCallbacks.foldl (fun s cb => runCallback cb s)
    { s with host := { s.host with frameCallbacks := [] } }

/-- Run `n` display refreshes. -/
def simulate : Nat → State → State
  | 0, s => s
  | n + 1, s => simulate n (runFrame s)

/-- A page with a canvas, a 3D context and a working shader pair. -/
def workingPage : Page :=
  { getElementById := fun _ => some grantingCanvas, initShaders := okShaders }

/-- A page whose canvas yields no 3D context. -/
def contextlessPage : Page :=
  { getElementById := fun _ => some refusingCanvas, initShaders := okShaders }

/-- A page with a canvas and a 3D context whose shader pair fails to compile. -/
def shaderlessPage : Page :=
  { getElementById := fun _ => some grantingCanvas, initShaders := badShaders }

/-- The state `init()` stops in on `shaderlessPage`: the cube has no `render`,
the last call made is the clear, and no callback is waiting. -/
def abortedState : State :=
  { host := { Host.fresh with
      trace := [.getElementById "webgl-canvas", .getContext "webgl2",
        .clearColor 1.0 1.0 1.0 1.0, .clearDepth 1.0, .glEnable .DEPTH_TEST,
        .glEnable .CULL_FACE, .cullFace none, .newCube none none,
        .initShaders "Cone-vertex-shader" "Cone-fragment-shader",
        .alert (alertText "Cone-vertex-shader" "Cone-fragment-shader"),
        .clear (COLOR_BUFFER_BIT ||| DEPTH_BUFFER_BIT)] },
    gl := .obj (), cube := .obj .noRender }

/-- The state in which the loop runs: context and cube in place, one `render`
callback waiting for the next display refresh. -/
def loopState : State :=
  { host := { Host.fresh with frameCallbacks := [.render] },
    gl := .obj (), cube := .obj (.withRender (cubeClosure (.program 1))) }

/-- The calls one invocation of the driver's `render()` makes when the cube has
closure `c`. -/
def frameCalls (c : CubeClosure) : List Event :=
  [.clear (COLOR_BUFFER_BIT ||| DEPTH_BUFFER_BIT), .shapeRender] ++ renderCalls c ++
    [.requestAnimationFrame .render]

end Assignment3

/-! ## `Assignment-2/main.js` -/

namespace Assignment2

/-- The object the external `Cone` constructor yields, as far as the driver
uses it: whether it has a `render` property. -/
structure ConeObject where
  hasRender : Bool
deriving DecidableEq

/-- What the non-depth driver runs against: the document and the external
`Cone` constructor (its second argument is passed on). -/
structure Page where
  getElementById : String → Option Canvas
  Cone : ℚ → ConeObject

/-- Host state together with the driver's globals `gl` and `cone`. -/
structure State where
  host : Host
  gl : Global Unit
  cone : Global ConeObject
deriving DecidableEq

/-- State at page load. -/
def State.fresh : State :=
  { host := Host.fresh, gl := .unassigned, cone := .unassigned }

/-- Record one call. -/
def State.emit (s : State) (e : Event) : State :=
  { s with host := s.host.emit e }

/-- A call `cone.render()`: a `TypeError` when the object has no `render`. -/
def ConeObject.render (obj : ConeObject) (h : Host) : Completion Host :=
  if obj.hasRender then .normal (h.emit .shapeRender) else .throw .TypeError h

/-- The driver's `render()`. -/
def render (s : State) : Completion State :=
  match s.gl with
  | .unassigned => .throw .ReferenceError s
  | .null => .throw .TypeError s
  | .obj _ =>
    let s := s.emit (.clear COLOR_BUFFER_BIT)
    match s.cone with
    | .unassigned => .throw .ReferenceError s
    | .null => .throw .TypeError s
    | .obj cone =>
      match cone.render s.host with
      | .throw e h => .throw e { s with host := h }
      | .normal h => .normal { s with host := h }

/-- The driver's `init()`, the page-load handler. -/
def init (page : Page) (s : State) : Completion State :=
  let s := s.emit (.getElementById "webgl-canvas")
  match page.getElementById "webgl-canvas" with
  | none => .throw .TypeError s
  | some canvas =>
    let s := s.emit (.getContext "webgl2")
    let s := { s with gl := if canvas.getContext "webgl2" then .obj () else .null }
    match s.gl with
    | .obj _ =>
      let s := s.emit (.clearColor 0.0 0.23 0.44 1.0)
      let s := s.emit (.newCone 350)
      let s := { s with cone := .obj (page.Cone 350) }
      render s
    | _ => .throw .TypeError s

/-- A page with a canvas, a 3D context and a cone that can be rendered. -/
def workingPage : Page :=
  { getElementById := fun _ => some grantingCanvas, Cone := fun _ => { hasRender := true } }

end Assignment2

/-! ## Facts shared by the proofs -/

theorem cubePositions_eq :
    cubePositions = [-0.5, 0.5, 0.5, 0.5, 0.5, 0.5, 0.5, -0.5, 0.5, -0.5, -0.5, 0.5,
      -0.5, 0.5, -0.5, 0.5, 0.5, -0.5, 0.5, -0.5, -0.5, -0.5, -0.5, -0.5] := rfl

theorem cubePositions_length : cubePositions.length = 24 := by
  simp [cubePositions_eq]

theorem cubeIndices_eq : cubeIndices = [0, 1, 2, 3, 4, 5, 6, 7] := rfl

theorem vertices_cubePositions :
    vertices cubePositions =
      [(-0.5, 0.5, 0.5), (0.5, 0.5, 0.5), (0.5, -0.5, 0.5), (-0.5, -0.5, 0.5),
       (-0.5, 0.5, -0.5), (0.5, 0.5, -0.5), (0.5, -0.5, -0.5), (-0.5, -0.5, -0.5)] := rfl

/-- A construction that does not take the failure branch yields the closure
`cubeClosure` over the program `initShaders` returned. -/
theorem Cube_withRender (initShaders : String → String → ShaderProgram)
    (vertexShaderId fragmentShaderId : Option String) (h : Host) (c : CubeClosure)
    (hc : (Cube initShaders vertexShaderId fragmentShaderId h).2 = .withRender c) :
    c = cubeClosure (initShaders (jsOr vertexShaderId "Cone-vertex-shader")
          (jsOr fragmentShaderId "Cone-fragment-shader")) := by
  unfold Cube at hc
  by_cases hlt : (initShaders (jsOr vertexShaderId "Cone-vertex-shader")
      (jsOr fragmentShaderId "Cone-fragment-shader")).ltZero = true
  · simp [hlt] at hc
  · simp [hlt] at hc
    rw [← hc]
    rfl

/-- The state a `render()` call of a closure produces. -/
theorem CubeClosure.render_eq (c : CubeClosure) (h : Host) :
    c.render h =
      { h with trace := h.trace ++ renderCalls c,
               aPositionEnabled := false, indicesEnabled := false } := by
  simp [CubeClosure.render, renderCalls, Host.emit, Attribute.enable, Attribute.disable,
    Indices.enable, Indices.disable]

theorem Cube_ok_fresh :
    (Cube okShaders none none Host.fresh).2 = .withRender (cubeClosure (.program 1)) := rfl

/-! ## The geometry the constructor builds -/

/-- C2: the index list the constructor builds has even length, and every index
value in it, in the first half and in the second half alike, is below the
number of vertices, a third of the number of position floats. -/
theorem C2_indices_even_and_in_bounds (initShaders : String → String → ShaderProgram)
    (vertexShaderId fragmentShaderId : Option String) (h : Host) (c : CubeClosure)
    (hc : (Cube initShaders vertexShaderId fragmentShaderId h).2 = .withRender c) :
    c.indices.data.length % 2 = 0 ∧
    c.aPosition.data = c.positions ∧
    (∀ i ∈ c.indices.data, 0 ≤ i ∧ i < c.positions.length / 3) ∧
    (∀ i ∈ c.indices.data.take (c.indices.data.length / 2), i < c.positions.length / 3) ∧
    (∀ i ∈ c.indices.data.drop (c.indices.data.length / 2), i < c.positions.length / 3) := by
  rw [Cube_withRender initShaders vertexShaderId fragmentShaderId h c hc]
  clear hc
  simp only [cubeClosure, Indices.create, cubeIndices_eq, cubePositions_length]
  refine ⟨by decide, trivial, ?_, ?_, ?_⟩
  · intro i hi
    simp at hi
    omega
  · intro i hi
    simp at hi
    omega
  · intro i hi
    simp at hi
    omega

theorem C2_indices_even_and_in_bounds_witness :
    (cubeClosure (.program 1)).indices.data.length % 2 = 0 ∧
    (cubeClosure (.program 1)).aPosition.data = (cubeClosure (.program 1)).positions ∧
    (∀ i ∈ (cubeClosure (.program 1)).indices.data,
      0 ≤ i ∧ i < (cubeClosure (.program 1)).positions.length / 3) ∧
    (∀ i ∈ (cubeClosure (.program 1)).indices.data.take
        ((cubeClosure (.program 1)).indices.data.length / 2),
      i < (cubeClosure (.program 1)).positions.length / 3) ∧
    (∀ i ∈ (cubeClosure (.program 1)).indices.data.drop
        ((cubeClosure (.program 1)).indices.data.length / 2),
      i < (cubeClosure (.program 1)).positions.length / 3) :=
  C2_indices_even_and_in_bounds okShaders none none Host.fresh (cubeClosure (.program 1))
    Cube_ok_fresh

/-- C10: the constructor's position list has 24 coordinates forming 8 pairwise
distinct vertices, which are exactly the corners with every coordinate -1/2 or
+1/2, and its index list is 0, 1, ..., 7: the k-th index is k and every vertex is
indexed exactly once. -/
theorem C10_corners_and_identity_indices (initShaders : String → String → ShaderProgram)
    (vertexShaderId fragmentShaderId : Option String) (h : Host) (c : CubeClosure)
    (hc : (Cube initShaders vertexShaderId fragmentShaderId h).2 = .withRender c) :
    c.positions.length = 24 ∧
    (vertices c.positions).length = 8 ∧
    (vertices c.positions).Nodup ∧
    (∀ x y z : ℚ, (x, y, z) ∈ vertices c.positions ↔
      (x = -1/2 ∨ x = 1/2) ∧ (y = -1/2 ∨ y = 1/2) ∧ (z = -1/2 ∨ z = 1/2)) ∧
    c.indices.data = List.range 8 ∧
    (∀ k, k < 8 → c.indices.data[k]? = some k) ∧
    (∀ k, k < 8 → c.indices.data.count k = 1) := by
  rw [Cube_withRender initShaders vertexShaderId fragmentShaderId h c hc]
  clear hc
  simp only [cubeClosure, Indices.create, cubeIndices_eq, vertices_cubePositions,
    cubePositions_length]
  refine ⟨trivial, by simp, ?_, ?_, by decide, ?_, ?_⟩
  · norm_num
  · intro x y z
    norm_num
    tauto
  · intro k hk
    interval_cases k <;> rfl
  · intro k hk
    interval_cases k <;> rfl

theorem C10_corners_and_identity_indices_witness :
    (cubeClosure (.program 1)).positions.length = 24 ∧
    (vertices (cubeClosure (.program 1)).positions).length = 8 ∧
    (vertices (cubeClosure (.program 1)).positions).Nodup ∧
    (∀ x y z : ℚ, (x, y, z) ∈ vertices (cubeClosure (.program 1)).positions ↔
      (x = -1/2 ∨ x = 1/2) ∧ (y = -1/2 ∨ y = 1/2) ∧ (z = -1/2 ∨ z = 1/2)) ∧
    (cubeClosure (.program 1)).indices.data = List.range 8 ∧
    (∀ k, k < 8 → (cubeClosure (.program 1)).indices.data[k]? = some k) ∧
    (∀ k, k < 8 → (cubeClosure (.program 1)).indices.data.count k = 1) :=
  C10_corners_and_identity_indices okShaders none none Host.fresh (cubeClosure (.program 1))
    Cube_ok_fresh

/-! ## What `render()` of the cube draws -/

theorem drawCalls_renderCalls (p : ShaderProgram) :
    drawCalls (renderCalls (cubeClosure p)) =
      [.drawElements .TRIANGLE_STRIP 4 .UNSIGNED_SHORT 0] := by
  simp only [drawCalls, renderCalls, cubeClosure, Indices.create, cubeIndices_eq]
  simp [Event.isDraw]
  norm_num

/-- C1: on the cube built with a working shader pair, whose index list has
length 8, one `render()` issues a single draw call, with count 4 at offset 0;
there is no second draw call starting half-way into the index list. -/
theorem C1_render_issues_one_draw :
    (Cube okShaders none none Host.fresh).2 = .withRender (cubeClosure (.program 1)) ∧
    (cubeClosure (.program 1)).indices.count = 8 ∧
    drawCalls (renderTrace (Cube okShaders none none Host.fresh).2) =
      [.drawElements .TRIANGLE_STRIP 4 .UNSIGNED_SHORT 0] ∧
    (drawCalls (renderTrace (Cube okShaders none none Host.fresh).2)).length = 1 := by
  have ht : renderTrace (Cube okShaders none none Host.fresh).2 =
      Event.shapeRender :: renderCalls (cubeClosure (.program 1)) := by
    rw [Cube_ok_fresh]
    simp [renderTrace, CubeObject.render, CubeClosure.render_eq, Host.emit, Host.fresh]
  have hd : drawCalls (renderTrace (Cube okShaders none none Host.fresh).2) =
      [.drawElements .TRIANGLE_STRIP 4 .UNSIGNED_SHORT 0] := by
    rw [ht]
    have := drawCalls_renderCalls (.program 1)
    simpa [drawCalls, Event.isDraw] using this
  refine ⟨Cube_ok_fresh, rfl, hd, ?_⟩
  rw [hd]
  rfl

/-- C9: the draw call `render()` issues has count 4 = indices.count / 2 and
offset 0 in triangle-strip mode; it reads exactly the indices 0, 1, 2, 3, which
are exactly the vertices with z = +1/2, and the vertices 4..7, with z = -1/2,
are read by no draw call. -/
theorem C9_only_front_vertices_drawn (initShaders : String → String → ShaderProgram)
    (vertexShaderId fragmentShaderId : Option String) (h₀ : Host) (c : CubeClosure)
    (hc : (Cube initShaders vertexShaderId fragmentShaderId h₀).2 = .withRender c)
    (h : Host) :
    (c.render h).trace = h.trace ++ renderCalls c ∧
    drawCalls (renderCalls c) = [.drawElements .TRIANGLE_STRIP 4 .UNSIGNED_SHORT 0] ∧
    (c.indices.count : ℚ) / 2 = 4 ∧
    (∀ e ∈ drawCalls (renderCalls c), referenced c.indices.data e = [0, 1, 2, 3]) ∧
    (∀ i, i < 8 → (zOf c.positions i = some (1/2) ↔ i ∈ [0, 1, 2, 3])) ∧
    (∀ i, 4 ≤ i → i < 8 → zOf c.positions i = some (-1/2) ∧
      ∀ e ∈ drawCalls (renderCalls c), i ∉ referenced c.indices.data e) := by
  have hr : (c.render h).trace = h.trace ++ renderCalls c := by
    rw [CubeClosure.render_eq]
  rw [Cube_withRender initShaders vertexShaderId fragmentShaderId h₀ c hc] at hr ⊢
  clear hc
  have href : referenced cubeIndices (.drawElements .TRIANGLE_STRIP 4 .UNSIGNED_SHORT 0) =
      [0, 1, 2, 3] := by
    simp [referenced, IndexType.bytes, cubeIndices_eq]
  refine ⟨hr, drawCalls_renderCalls _, ?_, ?_, ?_, ?_⟩
  · simp only [cubeClosure, Indices.create, cubeIndices_eq]
    norm_num
  · intro e he
    rw [drawCalls_renderCalls] at he
    simp only [List.mem_singleton] at he
    subst he
    exact href
  · intro i hi
    simp only [cubeClosure, zOf, cubePositions_eq]
    interval_cases i <;> norm_num
  · intro i h4 h8
    refine ⟨?_, ?_⟩
    · simp only [cubeClosure, zOf, cubePositions_eq]
      interval_cases i <;> norm_num
    · intro e he
      rw [drawCalls_renderCalls] at he
      simp only [List.mem_singleton] at he
      subst he
      show i ∉ referenced cubeIndices _
      rw [href]
      simp
      omega

theorem C9_only_front_vertices_drawn_witness :
    ((cubeClosure (.program 1)).render Host.fresh).trace =
      Host.fresh.trace ++ renderCalls (cubeClosure (.program 1)) ∧
    drawCalls (renderCalls (cubeClosure (.program 1))) =
      [.drawElements .TRIANGLE_STRIP 4 .UNSIGNED_SHORT 0] ∧
    ((cubeClosure (.program 1)).indices.count : ℚ) / 2 = 4 ∧
    (∀ e ∈ drawCalls (renderCalls (cubeClosure (.program 1))),
      referenced (cubeClosure (.program 1)).indices.data e = [0, 1, 2, 3]) ∧
    (∀ i, i < 8 →
      (zOf (cubeClosure (.program 1)).positions i = some (1/2) ↔ i ∈ [0, 1, 2, 3])) ∧
    (∀ i, 4 ≤ i → i < 8 → zOf (cubeClosure (.program 1)).positions i = some (-1/2) ∧
      ∀ e ∈ drawCalls (renderCalls (cubeClosure (.program 1))),
        i ∉ referenced (cubeClosure (.program 1)).indices.data e) :=
  C9_only_front_vertices_drawn okShaders none none Host.fresh (cubeClosure (.program 1))
    Cube_ok_fresh Host.fresh

/-! ## Binding state around `render()` -/

/-- C3: for a constructed cube, neither the position attribute nor the index
buffer is enabled after `render()`, whatever was enabled before it, so in
particular when neither was; in the calls `render()` makes, every enable is
followed by a disable of the same binding, and every draw call comes before
every disable. -/
theorem C3_render_leaves_nothing_enabled (initShaders : String → String → ShaderProgram)
    (vertexShaderId fragmentShaderId : Option String) (h₀ : Host) (c : CubeClosure)
    (hc : (Cube initShaders vertexShaderId fragmentShaderId h₀).2 = .withRender c)
    (h : Host) :
    (c.render h).aPositionEnabled = false ∧
    (c.render h).indicesEnabled = false ∧
    (CubeObject.withRender c).render h = .normal (c.render (h.emit .shapeRender)) ∧
    ∃ added : List Event,
      (c.render h).trace = h.trace ++ added ∧
      (∃ (i : Nat) (b : Binding), added[i]? = some (Event.enable b)) ∧
      (∀ (i : Nat) (b : Binding), added[i]? = some (Event.enable b) →
        ∃ j : Nat, i < j ∧ added[j]? = some (Event.disable b)) ∧
      (∀ (i j : Nat) (b : Binding) (e : Event),
        added[i]? = some (Event.disable b) → added[j]? = some e →
        e.isDraw = true → j < i) := by
  rw [Cube_withRender initShaders vertexShaderId fragmentShaderId h₀ c hc]
  clear hc
  generalize cubeClosure _ = c
  refine ⟨by rw [CubeClosure.render_eq], by rw [CubeClosure.render_eq], rfl,
    renderCalls c, by rw [CubeClosure.render_eq], ⟨1, .aPosition, rfl⟩, ?_, ?_⟩
  · intro i b hb
    rcases i with _ | _ | _ | _ | _ | _ | i
    · simp [renderCalls] at hb
    · refine ⟨4, by omega, ?_⟩
      simp [renderCalls] at hb
      simp [renderCalls, hb]
    · refine ⟨5, by omega, ?_⟩
      simp [renderCalls] at hb
      simp [renderCalls, hb]
    · simp [renderCalls] at hb
    · simp [renderCalls] at hb
    · simp [renderCalls] at hb
    · simp [renderCalls] at hb
  · intro i j b e hb he hd
    rcases j with _ | _ | _ | _ | j
    · simp [renderCalls] at he
      subst he
      simp [Event.isDraw] at hd
    · simp [renderCalls] at he
      subst he
      simp [Event.isDraw] at hd
    · simp [renderCalls] at he
      subst he
      simp [Event.isDraw] at hd
    · rcases i with _ | _ | _ | _ | i
      · simp [renderCalls] at hb
      · simp [renderCalls] at hb
      · simp [renderCalls] at hb
      · simp [renderCalls] at hb
      · omega
    · rcases j with _ | _ | j
      · simp [renderCalls] at he
        subst he
        simp [Event.isDraw] at hd
      · simp [renderCalls] at he
        subst he
        simp [Event.isDraw] at hd
      · simp [renderCalls] at he

theorem C3_render_leaves_nothing_enabled_witness :
    ((cubeClosure (.program 1)).render Host.fresh).aPositionEnabled = false ∧
    ((cubeClosure (.program 1)).render Host.fresh).indicesEnabled = false ∧
    (CubeObject.withRender (cubeClosure (.program 1))).render Host.fresh =
      .normal ((cubeClosure (.program 1)).render (Host.fresh.emit .shapeRender)) ∧
    ∃ added : List Event,
      ((cubeClosure (.program 1)).render Host.fresh).trace = Host.fresh.trace ++ added ∧
      (∃ (i : Nat) (b : Binding), added[i]? = some (Event.enable b)) ∧
      (∀ (i : Nat) (b : Binding), added[i]? = some (Event.enable b) →
        ∃ j : Nat, i < j ∧ added[j]? = some (Event.disable b)) ∧
      (∀ (i j : Nat) (b : Binding) (e : Event),
        added[i]? = some (Event.disable b) → added[j]? = some e →
        e.isDraw = true → j < i) :=
  C3_render_leaves_nothing_enabled okShaders none none Host.fresh (cubeClosure (.program 1))
    Cube_ok_fresh Host.fresh

/-! ## Shader ids and the failure branch of the constructor -/

theorem initShadersArgs_append (xs ys : List Event) :
    initShadersArgs (xs ++ ys) = initShadersArgs xs ++ initShadersArgs ys := by
  induction xs with
  | nil => rfl
  | cons x xs ih => cases x <;> simp [initShadersArgs, ih]

theorem jsOr_some (s d : String) (hs : s ≠ "") : jsOr (some s) d = s := by
  simp [jsOr, toBoolean, hs]

theorem jsOr_empty (d : String) : jsOr (some "") d = d := by
  simp [jsOr, toBoolean]

/-- The trace of a construction: the `initShaders` call, then either the alert
or the two buffer creations. -/
theorem Cube_trace (initShaders : String → String → ShaderProgram)
    (vertexShaderId fragmentShaderId : Option String) (h : Host) :
    (Cube initShaders vertexShaderId fragmentShaderId h).1.trace =
      h.trace ++ .initShaders (jsOr vertexShaderId "Cone-vertex-shader")
          (jsOr fragmentShaderId "Cone-fragment-shader") ::
        (if (initShaders (jsOr vertexShaderId "Cone-vertex-shader")
              (jsOr fragmentShaderId "Cone-fragment-shader")).ltZero then
          [.alert (alertText (jsOr vertexShaderId "Cone-vertex-shader")
            (jsOr fragmentShaderId "Cone-fragment-shader"))]
        else
          [.newAttribute (initShaders (jsOr vertexShaderId "Cone-vertex-shader")
              (jsOr fragmentShaderId "Cone-fragment-shader")) cubePositions "aPosition" 3,
           .newIndices cubeIndices]) := by
  unfold Cube
  by_cases hlt : (initShaders (jsOr vertexShaderId "Cone-vertex-shader")
      (jsOr fragmentShaderId "Cone-fragment-shader")).ltZero = true
  · simp [hlt, Host.emit]
  · simp [hlt, Host.emit]

/-- C7: the constructor calls `initShaders` once, with the caller's vertex and
fragment shader ids where they are supplied and non-empty, and otherwise,
independently for each, with "Cone-vertex-shader" and "Cone-fragment-shader";
an id that is omitted (undefined) or empty counts as not supplied. -/
theorem C7_shader_id_defaults (initShaders : String → String → ShaderProgram)
    (vertexShaderId fragmentShaderId : Option String) (h : Host) :
    ∃ vertShdr fragShdr : String,
      initShadersArgs (Cube initShaders vertexShaderId fragmentShaderId h).1.trace =
        initShadersArgs h.trace ++ [(vertShdr, fragShdr)] ∧
      (∀ s, vertexShaderId = some s → s ≠ "" → vertShdr = s) ∧
      (vertexShaderId = none ∨ vertexShaderId = some "" → vertShdr = "Cone-vertex-shader") ∧
      (∀ s, fragmentShaderId = some s → s ≠ "" → fragShdr = s) ∧
      (fragmentShaderId = none ∨ fragmentShaderId = some "" →
        fragShdr = "Cone-fragment-shader") := by
  refine ⟨jsOr vertexShaderId "Cone-vertex-shader",
    jsOr fragmentShaderId "Cone-fragment-shader", ?_, ?_, ?_, ?_, ?_⟩
  · rw [Cube_trace, initShadersArgs_append]
    split <;> simp [initShadersArgs]
  · intro s hs hne
    rw [hs, jsOr_some s _ hne]
  · rintro (hs | hs)
    · rw [hs]
      rfl
    · rw [hs, jsOr_empty]
  · intro s hs hne
    rw [hs, jsOr_some s _ hne]
  · rintro (hs | hs)
    · rw [hs]
      rfl
    · rw [hs, jsOr_empty]

theorem containsText_alertText_vert (v f : String) : containsText (alertText v f) v := by
  refine ⟨"Error: Cone shader pipeline failed to compile.\n\n" ++ "\tvertex shader id:  \t",
    "\n" ++ "\tfragment shader id:\t" ++ f ++ "\n", ?_⟩
  simp [alertText, String.append_assoc]

theorem containsText_alertText_frag (v f : String) : containsText (alertText v f) f := by
  refine ⟨"Error: Cone shader pipeline failed to compile.\n\n" ++
    "\tvertex shader id:  \t" ++ v ++ "\n" ++ "\tfragment shader id:\t", "\n", ?_⟩
  simp [alertText, String.append_assoc]

/-- C4: when `initShaders` returns a negative number, the constructor makes the
`initShaders` call and then exactly one alert, whose text contains the vertex
and the fragment shader id it used; it creates no buffer; the object has no
`render`, so calling it throws before any call is made and no draw is issued. -/
theorem C4_shader_failure_aborts (initShaders : String → String → ShaderProgram)
    (vertexShaderId fragmentShaderId : Option String) (h : Host) (n : Int)
    (hret : initShaders (jsOr vertexShaderId "Cone-vertex-shader")
      (jsOr fragmentShaderId "Cone-fragment-shader") = .number n)
    (hneg : n < 0) :
    ∃ vertShdr fragShdr msg : String,
      (Cube initShaders vertexShaderId fragmentShaderId h).1.trace =
        h.trace ++ [.initShaders vertShdr fragShdr, .alert msg] ∧
      ([Event.initShaders vertShdr fragShdr, Event.alert msg].filter Event.isAlert).length = 1 ∧
      containsText msg vertShdr ∧ containsText msg fragShdr ∧
      [Event.initShaders vertShdr fragShdr, Event.alert msg].filter Event.isBufferCreation = [] ∧
      (Cube initShaders vertexShaderId fragmentShaderId h).2 = .noRender ∧
      (∀ h₁ : Host, (Cube initShaders vertexShaderId fragmentShaderId h).2.render h₁ =
        .throw .TypeError h₁) ∧
      drawCalls (renderTrace (Cube initShaders vertexShaderId fragmentShaderId h).2) = [] := by
  have hlt : (initShaders (jsOr vertexShaderId "Cone-vertex-shader")
      (jsOr fragmentShaderId "Cone-fragment-shader")).ltZero = true := by
    rw [hret]
    simp [ShaderProgram.ltZero, hneg]
  have hobj : (Cube initShaders vertexShaderId fragmentShaderId h).2 = .noRender := by
    unfold Cube
    simp [hlt]
  refine ⟨jsOr vertexShaderId "Cone-vertex-shader", jsOr fragmentShaderId "Cone-fragment-shader",
    alertText (jsOr vertexShaderId "Cone-vertex-shader")
      (jsOr fragmentShaderId "Cone-fragment-shader"), ?_, ?_, ?_, ?_, ?_, hobj, ?_, ?_⟩
  · rw [Cube_trace]
    simp [hlt]
  · simp [Event.isAlert]
  · exact containsText_alertText_vert _ _
  · exact containsText_alertText_frag _ _
  · simp [Event.isBufferCreation]
  · intro h₁
    rw [hobj]
    rfl
  · rw [hobj]
    rfl

theorem C4_shader_failure_aborts_witness :
    ∃ vertShdr fragShdr msg : String,
      (Cube badShaders (some "my-vs") none Host.fresh).1.trace =
        Host.fresh.trace ++ [.initShaders vertShdr fragShdr, .alert msg] ∧
      ([Event.initShaders vertShdr fragShdr, Event.alert msg].filter Event.isAlert).length = 1 ∧
      containsText msg vertShdr ∧ containsText msg fragShdr ∧
      [Event.initShaders vertShdr fragShdr, Event.alert msg].filter Event.isBufferCreation = [] ∧
      (Cube badShaders (some "my-vs") none Host.fresh).2 = .noRender ∧
      (∀ h₁ : Host, (Cube badShaders (some "my-vs") none Host.fresh).2.render h₁ =
        .throw .TypeError h₁) ∧
      drawCalls (renderTrace (Cube badShaders (some "my-vs") none Host.fresh).2) = [] :=
  C4_shader_failure_aborts badShaders (some "my-vs") none Host.fresh (-1) rfl (by decide)

/-! ## The depth-enabled driver -/

namespace Assignment3

/-- One invocation of the driver's `render()` with a context and a renderable
cube in place completes normally and makes the calls `frameCalls c`. -/
theorem render_normal (s : State) (c : CubeClosure) (hgl : s.gl = .obj ())
    (hcube : s.cube = .obj (.withRender c)) :
    render s = .normal
      { s with host :=
        { s.host with
          trace := s.host.trace ++ frameCalls c,
          aPositionEnabled := false, indicesEnabled := false,
          frameCallbacks := s.host.frameCallbacks ++ [.render] } } := by
  unfold render
  simp only [hgl, State.emit, hcube, CubeObject.render, CubeClosure.render_eq,
    requestAnimationFrame, Host.emit, frameCalls]
  simp

/-- One display refresh with exactly the `render` callback waiting. -/
theorem runFrame_eq (s : State) (c : CubeClosure) (hgl : s.gl = .obj ())
    (hcube : s.cube = .obj (.withRender c)) (hq : s.host.frameCallbacks = [.render]) :
    runFrame s =
      { s with host :=
        { s.host with
          trace := s.host.trace ++ frameCalls c,
          aPositionEnabled := false, indicesEnabled := false,
          frameCallbacks := [.render] } } := by
  unfold runFrame
  rw [hq]
  simp only [List.foldl_cons, List.foldl_nil, runCallback]
  rw [render_normal { s with host := { s.host with frameCallbacks := [] } } c hgl hcube]
  simp

theorem simulate_succ (n : Nat) (s : State) :
    simulate (n + 1) s = runFrame (simulate n s) := by
  induction n generalizing s with
  | zero => rfl
  | succ n ih =>
    show simulate (n + 1) (runFrame s) = runFrame (simulate n (runFrame s))
    exact ih (runFrame s)

/-- What `n` display refreshes preserve and count. -/
theorem simulate_invariant (s : State) (c : CubeClosure) (hgl : s.gl = .obj ())
    (hcube : s.cube = .obj (.withRender c)) (hq : s.host.frameCallbacks = [.render])
    (n : Nat) :
    (simulate n s).gl = .obj () ∧ (simulate n s).cube = .obj (.withRender c) ∧
    (simulate n s).host.frameCallbacks = [.render] ∧
    (simulate n s).host.uncaught = s.host.uncaught ∧
    (simulate n s).host.trace.countP Event.isSchedule =
      s.host.trace.countP Event.isSchedule + n ∧
    (simulate n s).host.trace.countP Event.isShapeRender =
      s.host.trace.countP Event.isShapeRender + n ∧
    (simulate n s).host.trace.countP Event.isClear =
      s.host.trace.countP Event.isClear + n := by
  induction n with
  | zero => exact ⟨hgl, hcube, hq, rfl, rfl, rfl, rfl⟩
  | succ n ih =>
    obtain ⟨h1, h2, h3, h4, h5, h6, h7⟩ := ih
    rw [simulate_succ, runFrame_eq _ c h1 h2 h3]
    refine ⟨h1, h2, rfl, h4, ?_, ?_, ?_⟩
    · simp only [List.countP_append, h5, frameCalls, renderCalls]
      simp [Event.isSchedule]
      omega
    · simp only [List.countP_append, h6, frameCalls, renderCalls]
      simp [Event.isShapeRender]
      omega
    · simp only [List.countP_append, h7, frameCalls, renderCalls]
      simp [Event.isClear]
      omega

/-- C5 as stated fails: when the shader pair does not compile, the cube `init()`
constructs has no `render`; the one invocation of the driver's `render()` that
`init()` makes clears the buffers, then throws a `TypeError` at `cube.render()`
and registers nothing, so no display refresh ever runs `render()` again: the
loop has stopped, with one clear, no shape render and no scheduling call. -/
theorem C5_render_stops_without_cube_render :
    init shaderlessPage State.fresh = .throw .TypeError abortedState ∧
    abortedState.gl = .obj () ∧ abortedState.cube = .obj .noRender ∧
    abortedState.host.trace.countP Event.isClear = 1 ∧
    abortedState.host.trace.countP Event.isShapeRender = 0 ∧
    abortedState.host.trace.countP Event.isSchedule = 0 ∧
    abortedState.host.frameCallbacks = [] ∧
    (simulate 3 abortedState).host.trace.countP Event.isSchedule = 0 ∧
    (simulate 3 abortedState).host.trace.countP Event.isShapeRender = 0 := by
  have hsim : simulate 3 abortedState = abortedState := rfl
  rw [hsim]
  refine ⟨rfl, rfl, rfl, ?_, ?_, ?_, rfl, ?_, ?_⟩
  · simp [abortedState, Event.isClear]
  · simp [abortedState, Event.isShapeRender]
  · simp [abortedState, Event.isSchedule]
  · simp [abortedState, Event.isSchedule]
  · simp [abortedState, Event.isShapeRender]

/-- C5, amended: once the context is in place and the cube was constructed
successfully, so that it has a `render`, and the `render` callback is waiting,
every display refresh is one invocation of `render()` that completes normally,
clears the colour and depth buffers, then calls the cube's `render()` once,
then registers itself once; after N refreshes there are N more scheduling
calls, N more shape renders and N more clears, and the callback is waiting
again: from there the loop has no stop condition. -/
theorem C5_render_loop_reschedules (s : State) (c : CubeClosure) (hgl : s.gl = .obj ())
    (hcube : s.cube = .obj (.withRender c)) (hq : s.host.frameCallbacks = [.render])
    (N : Nat) :
    render { simulate N s with
        host := { (simulate N s).host with frameCallbacks := [] } } =
      .normal (simulate (N + 1) s) ∧
    (simulate (N + 1) s).host.trace =
      (simulate N s).host.trace ++
        ([.clear (COLOR_BUFFER_BIT ||| DEPTH_BUFFER_BIT), .shapeRender] ++ renderCalls c ++
          [.requestAnimationFrame .render]) ∧
    (COLOR_BUFFER_BIT ||| DEPTH_BUFFER_BIT) &&& COLOR_BUFFER_BIT = COLOR_BUFFER_BIT ∧
    (COLOR_BUFFER_BIT ||| DEPTH_BUFFER_BIT) &&& DEPTH_BUFFER_BIT = DEPTH_BUFFER_BIT ∧
    (simulate N s).host.frameCallbacks = [.render] ∧
    (simulate N s).host.uncaught = s.host.uncaught ∧
    (simulate N s).host.trace.countP Event.isSchedule =
      s.host.trace.countP Event.isSchedule + N ∧
    (simulate N s).host.trace.countP Event.isShapeRender =
      s.host.trace.countP Event.isShapeRender + N ∧
    (simulate N s).host.trace.countP Event.isClear =
      s.host.trace.countP Event.isClear + N := by
  obtain ⟨h1, h2, h3, h4, h5, h6, h7⟩ := simulate_invariant s c hgl hcube hq N
  have hstep : simulate (N + 1) s =
      { simulate N s with host :=
        { (simulate N s).host with
          trace := (simulate N s).host.trace ++ frameCalls c,
          aPositionEnabled := false, indicesEnabled := false,
          frameCallbacks := [.render] } } := by
    rw [simulate_succ, runFrame_eq _ c h1 h2 h3]
  refine ⟨?_, ?_, by decide, by decide, h3, h4, h5, h6, h7⟩
  · rw [render_normal { simulate N s with
        host := { (simulate N s).host with frameCallbacks := [] } } c h1 h2, hstep]
    simp
  · rw [hstep]
    rfl

theorem C5_render_loop_reschedules_witness :
    render { simulate 3 loopState with
        host := { (simulate 3 loopState).host with frameCallbacks := [] } } =
      .normal (simulate (3 + 1) loopState) ∧
    (simulate (3 + 1) loopState).host.trace =
      (simulate 3 loopState).host.trace ++
        ([.clear (COLOR_BUFFER_BIT ||| DEPTH_BUFFER_BIT), .shapeRender] ++
          renderCalls (cubeClosure (.program 1)) ++ [.requestAnimationFrame .render]) ∧
    (COLOR_BUFFER_BIT ||| DEPTH_BUFFER_BIT) &&& COLOR_BUFFER_BIT = COLOR_BUFFER_BIT ∧
    (COLOR_BUFFER_BIT ||| DEPTH_BUFFER_BIT) &&& DEPTH_BUFFER_BIT = DEPTH_BUFFER_BIT ∧
    (simulate 3 loopState).host.frameCallbacks = [.render] ∧
    (simulate 3 loopState).host.uncaught = loopState.host.uncaught ∧
    (simulate 3 loopState).host.trace.countP Event.isSchedule =
      loopState.host.trace.countP Event.isSchedule + 3 ∧
    (simulate 3 loopState).host.trace.countP Event.isShapeRender =
      loopState.host.trace.countP Event.isShapeRender + 3 ∧
    (simulate 3 loopState).host.trace.countP Event.isClear =
      loopState.host.trace.countP Event.isClear + 3 :=
  C5_render_loop_reschedules loopState (cubeClosure (.program 1)) rfl rfl rfl 3

/-- On a page with a canvas, a context and a shader pair that compiles, `init()`
completes normally and leaves the loop running: context and cube in place and
the `render` callback waiting. -/
theorem init_starts_loop (page : Page) (s : State) (canvas : Canvas)
    (hcanvas : page.getElementById "webgl-canvas" = some canvas)
    (hctx : canvas.getContext "webgl2" = true)
    (hok : (page.initShaders "Cone-vertex-shader" "Cone-fragment-shader").ltZero = false) :
    ∃ s₁, init page s = .normal s₁ ∧ s₁.gl = .obj () ∧
      s₁.cube = .obj (.withRender
        (cubeClosure (page.initShaders "Cone-vertex-shader" "Cone-fragment-shader"))) ∧
      s₁.host.frameCallbacks = s.host.frameCallbacks ++ [.render] ∧
      s₁.host.trace.countP Event.isSchedule = s.host.trace.countP Event.isSchedule + 1 := by
  have hC : ∀ h : Host, Cube page.initShaders none none h =
      ({ h with trace := h.trace ++
          [.initShaders "Cone-vertex-shader" "Cone-fragment-shader",
           .newAttribute (page.initShaders "Cone-vertex-shader" "Cone-fragment-shader")
             cubePositions "aPosition" 3,
           .newIndices cubeIndices] },
        .withRender
          (cubeClosure (page.initShaders "Cone-vertex-shader" "Cone-fragment-shader"))) := by
    intro h
    unfold Cube
    simp [jsOr, hok, Host.emit, cubeClosure]
  unfold init
  simp only [hcanvas, hctx, State.emit, if_true, hC]
  rw [render_normal _ _ rfl rfl]
  refine ⟨_, rfl, rfl, rfl, rfl, ?_⟩
  simp [Host.emit, frameCalls, renderCalls, List.countP_append, List.countP_cons,
    Event.isSchedule]

/-- C8 as stated fails: on a page whose canvas yields no context, `init()` does
not return silently but ends in an uncaught `TypeError`. -/
theorem C8_init_throws_without_context :
    init contextlessPage State.fresh =
      .throw .TypeError
        { host := { Host.fresh with
            trace := [.getElementById "webgl-canvas", .getContext "webgl2"] },
          gl := .null, cube := .unassigned } := rfl

/-- C8, amended: when the context request yields no context, `init()` ends in a
`TypeError` at its first call on the context; up to there it has only looked up
the canvas and requested the context: no shape object is constructed, nothing is
cleared or drawn, nothing is scheduled. -/
theorem C8_init_without_context (page : Page) (s : State) (canvas : Canvas)
    (hcanvas : page.getElementById "webgl-canvas" = some canvas)
    (hctx : canvas.getContext "webgl2" = false) :
    ∃ s₁, init page s = .throw .TypeError s₁ ∧
      s₁.host.trace = s.host.trace ++ [.getElementById "webgl-canvas", .getContext "webgl2"] ∧
      s₁.gl = .null ∧ s₁.cube = s.cube ∧
      s₁.host.frameCallbacks = s.host.frameCallbacks ∧
      (∀ e ∈ [Event.getElementById "webgl-canvas", Event.getContext "webgl2"],
        e.isShapeConstruction = false ∧ e.isClear = false ∧ e.isDraw = false ∧
        e.isShapeRender = false ∧ e.isSchedule = false) := by
  unfold init
  simp only [hcanvas, hctx, State.emit]
  refine ⟨_, rfl, ?_, rfl, rfl, rfl, ?_⟩
  · simp [Host.emit]
  · intro e he
    simp at he
    rcases he with rfl | rfl <;> exact ⟨rfl, rfl, rfl, rfl, rfl⟩

theorem C8_init_without_context_witness :
    ∃ s₁, init contextlessPage State.fresh = .throw .TypeError s₁ ∧
      s₁.host.trace = State.fresh.host.trace ++
        [.getElementById "webgl-canvas", .getContext "webgl2"] ∧
      s₁.gl = .null ∧ s₁.cube = State.fresh.cube ∧
      s₁.host.frameCallbacks = State.fresh.host.frameCallbacks ∧
      (∀ e ∈ [Event.getElementById "webgl-canvas", Event.getContext "webgl2"],
        e.isShapeConstruction = false ∧ e.isClear = false ∧ e.isDraw = false ∧
        e.isShapeRender = false ∧ e.isSchedule = false) :=
  C8_init_without_context contextlessPage State.fresh refusingCanvas rfl rfl

end Assignment3

/-! ## The non-depth driver -/

namespace Assignment2

/-- C6: on a page with a canvas and a context, where the cone the external
constructor yields can be rendered, one run of `init()` constructs one cone
with 350 as the segment argument, clears once with the colour bit only, then
calls the cone's `render()` once, and calls no scheduling hook. -/
theorem C6_init_renders_once (page : Page) (s : State) (canvas : Canvas)
    (hcanvas : page.getElementById "webgl-canvas" = some canvas)
    (hctx : canvas.getContext "webgl2" = true)
    (hren : (page.Cone 350).hasRender = true) :
    ∃ s₁ added, init page s = .normal s₁ ∧
      s₁.host.trace = s.host.trace ++ added ∧
      added = [.getElementById "webgl-canvas", .getContext "webgl2",
        .clearColor 0.0 0.23 0.44 1.0, .newCone 350, .clear COLOR_BUFFER_BIT, .shapeRender] ∧
      s₁.cone = .obj (page.Cone 350) ∧
      added.countP Event.isShapeConstruction = 1 ∧
      added.countP Event.isClear = 1 ∧
      COLOR_BUFFER_BIT &&& DEPTH_BUFFER_BIT = 0 ∧
      added.countP Event.isShapeRender = 1 ∧
      added.countP Event.isSchedule = 0 ∧
      s₁.host.frameCallbacks = s.host.frameCallbacks := by
  have hinit : init page s = .normal
      { host := { s.host with trace := s.host.trace ++
          [.getElementById "webgl-canvas", .getContext "webgl2",
           .clearColor 0.0 0.23 0.44 1.0, .newCone 350, .clear COLOR_BUFFER_BIT,
           .shapeRender] },
        gl := .obj (), cone := .obj (page.Cone 350) } := by
    unfold init
    simp only [hcanvas, hctx, State.emit, if_true, render, ConeObject.render, hren]
    simp [Host.emit]
  refine ⟨_, _, hinit, rfl, rfl, rfl, ?_, ?_, by decide, ?_, ?_, rfl⟩
  · simp [Event.isShapeConstruction]
  · simp [Event.isClear]
  · simp [Event.isShapeRender]
  · simp [Event.isSchedule]

theorem C6_init_renders_once_witness :
    ∃ s₁ added, init workingPage State.fresh = .normal s₁ ∧
      s₁.host.trace = State.fresh.host.trace ++ added ∧
      added = [.getElementById "webgl-canvas", .getContext "webgl2",
        .clearColor 0.0 0.23 0.44 1.0, .newCone 350, .clear COLOR_BUFFER_BIT, .shapeRender] ∧
      s₁.cone = .obj (workingPage.Cone 350) ∧
      added.countP Event.isShapeConstruction = 1 ∧
      added.countP Event.isClear = 1 ∧
      COLOR_BUFFER_BIT &&& DEPTH_BUFFER_BIT = 0 ∧
      added.countP Event.isShapeRender = 1 ∧
      added.countP Event.isSchedule = 0 ∧
      s₁.host.frameCallbacks = State.fresh.host.frameCallbacks :=
  C6_init_renders_once workingPage State.fresh grantingCanvas rfl rfl rfl

end Assignment2

end CS375
